import Mathlib

/-!
Verification development for the MiniChat connection/broadcast/history manager
(`src/app.py`).  The Python code is shallowly embedded: JSON values become the
inductive `PyVal`, the `ConnectionManager` state becomes `ManagerState`, and
each method becomes a Lean function that returns the new state together with
the trace of messages sent (recipient connection id paired with the JSON
message).  Per-recipient send failure (the `try/except` around `send_json`)
is modelled by a predicate `failed : ConnId → Bool` saying which transports
raise on send.
-/

/-- A Python/JSON value as handled by the server (strings, ints, None,
lists, dicts).  Enough to express every value the code constructs or
inspects. -/
inductive PyVal where
  | pstr : String → PyVal
  | pint : Int → PyVal
  | pnone : PyVal
  | plist : List PyVal → PyVal
  | pdict : List (String × PyVal) → PyVal
deriving Repr

mutual

/-- Decidable equality on `PyVal` (the automatic deriving does not handle the
nested lists, so it is spelled out). -/
def PyVal.deq : (a b : PyVal) → Decidable (a = b)
  | .pstr x, .pstr y =>
    match decEq x y with
    | isTrue h => isTrue (h ▸ rfl)
    | isFalse h => isFalse (fun hc => h (PyVal.pstr.inj hc))
  | .pint x, .pint y =>
    match decEq x y with
    | isTrue h => isTrue (h ▸ rfl)
    | isFalse h => isFalse (fun hc => h (PyVal.pint.inj hc))
  | .pnone, .pnone => isTrue rfl
  | .plist xs, .plist ys =>
    match PyVal.deqList xs ys with
    | isTrue h => isTrue (h ▸ rfl)
    | isFalse h => isFalse (fun hc => h (PyVal.plist.inj hc))
  | .pdict xs, .pdict ys =>
    match PyVal.deqDict xs ys with
    | isTrue h => isTrue (h ▸ rfl)
    | isFalse h => isFalse (fun hc => h (PyVal.pdict.inj hc))
  | .pstr _, .pint _ => isFalse (fun hc => PyVal.noConfusion hc)
  | .pstr _, .pnone => isFalse (fun hc => PyVal.noConfusion hc)
  | .pstr _, .plist _ => isFalse (fun hc => PyVal.noConfusion hc)
  | .pstr _, .pdict _ => isFalse (fun hc => PyVal.noConfusion hc)
  | .pint _, .pstr _ => isFalse (fun hc => PyVal.noConfusion hc)
  | .pint _, .pnone => isFalse (fun hc => PyVal.noConfusion hc)
  | .pint _, .plist _ => isFalse (fun hc => PyVal.noConfusion hc)
  | .pint _, .pdict _ => isFalse (fun hc => PyVal.noConfusion hc)
  | .pnone, .pstr _ => isFalse (fun hc => PyVal.noConfusion hc)
  | .pnone, .pint _ => isFalse (fun hc => PyVal.noConfusion hc)
  | .pnone, .plist _ => isFalse (fun hc => PyVal.noConfusion hc)
  | .pnone, .pdict _ => isFalse (fun hc => PyVal.noConfusion hc)
  | .plist _, .pstr _ => isFalse (fun hc => PyVal.noConfusion hc)
  | .plist _, .pint _ => isFalse (fun hc => PyVal.noConfusion hc)
  | .plist _, .pnone => isFalse (fun hc => PyVal.noConfusion hc)
  | .plist _, .pdict _ => isFalse (fun hc => PyVal.noConfusion hc)
  | .pdict _, .pstr _ => isFalse (fun hc => PyVal.noConfusion hc)
  | .pdict _, .pint _ => isFalse (fun hc => PyVal.noConfusion hc)
  | .pdict _, .pnone => isFalse (fun hc => PyVal.noConfusion hc)
  | .pdict _, .plist _ => isFalse (fun hc => PyVal.noConfusion hc)

/-- Decidable equality on lists of `PyVal`. -/
def PyVal.deqList : (xs ys : List PyVal) → Decidable (xs = ys)
  | [], [] => isTrue rfl
  | [], _ :: _ => isFalse (fun hc => List.noConfusion hc)
  | _ :: _, [] => isFalse (fun hc => List.noConfusion hc)
  | x :: xs, y :: ys =>
    match PyVal.deq x y, PyVal.deqList xs ys with
    | isTrue h1, isTrue h2 => isTrue (by rw [h1, h2])
    | isFalse h1, _ => isFalse (by intro hc; injection hc with hh ht; exact h1 hh)
    | _, isFalse h2 => isFalse (by intro hc; injection hc with hh ht; exact h2 ht)

/-- Decidable equality on dict entry lists. -/
def PyVal.deqDict : (xs ys : List (String × PyVal)) → Decidable (xs = ys)
  | [], [] => isTrue rfl
  | [], _ :: _ => isFalse (fun hc => List.noConfusion hc)
  | _ :: _, [] => isFalse (fun hc => List.noConfusion hc)
  | (k1, v1) :: xs, (k2, v2) :: ys =>
    match decEq k1 k2, PyVal.deq v1 v2, PyVal.deqDict xs ys with
    | isTrue h1, isTrue h2, isTrue h3 => isTrue (by rw [h1, h2, h3])
    | isFalse h1, _, _ =>
      isFalse (by intro hc; injection hc with hh ht; injection hh with hk hv; exact h1 hk)
    | _, isFalse h2, _ =>
      isFalse (by intro hc; injection hc with hh ht; injection hh with hk hv; exact h2 hv)
    | _, _, isFalse h3 => isFalse (by intro hc; injection hc with hh ht; exact h3 ht)

end

instance : DecidableEq PyVal := PyVal.deq

/-- `d.get(k)` on a Python dict: `some v` if key `k` maps to `v`, else `none`
(Python returns `None`; absent key and key-mapped-to-`None` both compare
unequal to every string, which is all the code does with the result). -/
def dictGet : PyVal → String → Option PyVal
  | .pdict kvs, k => (kvs.find? (fun p => p.1 == k)).map (fun p => p.2)
  | _, _ => none

/-- Connection identity (one per live websocket session). -/
abbrev ConnId := Nat

/-- State of `ConnectionManager`: `active_connections` (a set of websockets,
modelled as a duplicate-free list in insertion order), `usernames`
(dict from websocket to display name, modelled as an association list with
unique keys), and `history` (the list of retained broadcast messages). -/
structure ManagerState where
  active_connections : List ConnId
  usernames : List (ConnId × String)
  history : List PyVal
deriving Repr, DecidableEq

/-- `ConnectionManager.__init__`: empty connections, names and history. -/
def initState : ManagerState := ⟨[], [], []⟩

/-- `self.max_history = 20`. -/
def max_history : Nat := 20

/-- `self.usernames.get(ws, d)`. -/
def usernamesGet (us : List (ConnId × String)) (ws : ConnId) (d : String) : String :=
  ((us.find? (fun p => p.1 == ws)).map (fun p => p.2)).getD d

/-- Python `set.add`: insert if not already present (model keeps insertion
order as the set's iteration order). -/
def setAdd (l : List ConnId) (x : ConnId) : List ConnId :=
  if l.contains x then l else l ++ [x]

/-- Python dict assignment `us[k] = v`: overwrite any existing binding. -/
def dictSet (us : List (ConnId × String)) (k : ConnId) (v : String) :
    List (ConnId × String) :=
  (us.filter (fun p => p.1 ≠ k)) ++ [(k, v)]

/-- `message.get("type") in {"chat", "image", "file", "system"}` — the
condition under which `broadcast` appends the message to history. -/
def isRetained (message : PyVal) : Bool :=
  match dictGet message "type" with
  | some (.pstr t) => ["chat", "image", "file", "system"].contains t
  | _ => false

/-- `if len(self.history) > self.max_history: self.history =
self.history[-self.max_history:]` — keep only the last `max_history`
entries. -/
def trimHistory (h : List PyVal) : List PyVal :=
  if h.length > max_history then h.drop (h.length - max_history) else h

/-- `ConnectionManager.broadcast`: append retained messages to history (and
trim), then try to send to every live connection, silently ignoring
per-recipient failures.  Returns the new state and the successful sends. -/
def broadcast (failed : ConnId → Bool) (st : ManagerState) (message : PyVal) :
    ManagerState × List (ConnId × PyVal) :=
  let history1 :=
    if isRetained message then trimHistory (st.history ++ [message])
    else st.history
  ({ st with history := history1 },
   (st.active_connections.filter (fun c => !failed c)).map (fun c => (c, message)))

/-- `ConnectionManager.broadcast_system`: broadcast a system message carrying
the formatted current time `now`. -/
def broadcast_system (failed : ConnId → Bool) (st : ManagerState)
    (text : String) (now : String) : ManagerState × List (ConnId × PyVal) :=
  broadcast failed st
    (.pdict [("type", .pstr "system"), ("data", .pstr text), ("ts", .pstr now)])

/-- `ConnectionManager.broadcast_participants`: send
`{"type": "participants", "data": users}` to every live connection, where
`users` lists `usernames.get(ws, "访客")` over the live set in iteration
order; per-recipient failures are ignored. -/
def broadcast_participants (failed : ConnId → Bool) (st : ManagerState) :
    List (ConnId × PyVal) :=
  let users := st.active_connections.map (fun ws => usernamesGet st.usernames ws "访客")
  (st.active_connections.filter (fun c => !failed c)).map
    (fun c => (c, .pdict [("type", .pstr "participants"),
                          ("data", .plist (users.map PyVal.pstr))]))

/-- `ConnectionManager.connect`: accept, add to the live set and to
`usernames`, broadcast the join notice, broadcast participants, then send the
history snapshot privately to the joiner (the snapshot send has no
`try/except` in the source, so it appears in the trace unconditionally). -/
def connect (failed : ConnId → Bool) (st : ManagerState) (websocket : ConnId)
    (username : String) (now : String) : ManagerState × List (ConnId × PyVal) :=
  let st1 : ManagerState :=
    { st with active_connections := setAdd st.active_connections websocket,
              usernames := dictSet st.usernames websocket username }
  let r2 := broadcast_system failed st1 (username ++ " 加入了聊天室") now
  let out3 := broadcast_participants failed r2.1
  (r2.1, r2.2 ++ out3 ++
     [(websocket, .pdict [("type", .pstr "history"), ("data", .plist r2.1.history)])])

/-- `ConnectionManager.disconnect`: look up the name (default `"访客"`),
remove the websocket from the live set and from `usernames`, return the
name.  Does not broadcast. -/
def disconnect (st : ManagerState) (websocket : ConnId) : ManagerState × String :=
  let username := usernamesGet st.usernames websocket "访客"
  ({ st with
      active_connections := st.active_connections.filter (fun c => c ≠ websocket),
      usernames := st.usernames.filter (fun p => p.1 ≠ websocket) },
   username)

/-!  The websocket session handler `ws_endpoint` (receive loop and exit
handling). -/

/-- An inbound websocket text frame after the `json.loads` attempt:
either undecodable, or the decoded JSON value. -/
inductive Frame where
  | malformed : Frame
  | parsed : PyVal → Frame

/-- Python f-string rendering of `payload.get("type")`, used only in the
unknown-type reply `f"未知消息类型：{msg_type}"`.  `None` renders as
`"None"`; container values are rendered only approximately (no claim
depends on that text). -/
def pyFormat : Option PyVal → String
  | none => "None"
  | some (.pstr s) => s
  | some (.pint n) => toString n
  | some .pnone => "None"
  | some (.plist _) => ""
  | some (.pdict _) => ""

/-- The envelope dict built at the top of the receive loop:
`{"type": msg_type, "user": usernames.get(ws, "访客"), "data": msg_data,
"name": msg_name, "ts": now}`. -/
def made_envelope (st : ManagerState) (websocket : ConnId)
    (kvs : List (String × PyVal)) (now : String) : PyVal :=
  .pdict [("type", (dictGet (.pdict kvs) "type").getD .pnone),
          ("user", .pstr (usernamesGet st.usernames websocket "访客")),
          ("data", (dictGet (.pdict kvs) "data").getD .pnone),
          ("name", (dictGet (.pdict kvs) "name").getD .pnone),
          ("ts", .pstr now)]

/-- Python `s.startswith(p)`, modelled on the underlying character list. -/
def strStartsWith (s p : String) : Bool := p.data.isPrefixOf s.data

/-- Python `not s.strip()`: the string is empty after stripping leading and
trailing whitespace, i.e. every character is whitespace. -/
def strBlank (s : String) : Bool := s.data.all (fun c => c.isWhitespace)

/-- A private `send_personal` reply `{"type": "system", "data": t}` used for
validation rejections (note: no `ts` key in the source dict literals). -/
def rejectMsg (t : String) : PyVal :=
  .pdict [("type", .pstr "system"), ("data", .pstr t)]

/-- The `image`/`file` branch of the receive loop: reject a non-string
`data` (`文件地址非法`), reject a string outside the two allowed static
prefixes (`非法资源地址`), otherwise broadcast the envelope. -/
def handleResource (failed : ConnId → Bool) (st : ManagerState)
    (websocket : ConnId) (msg_data : Option PyVal) (envelope : PyVal) :
    Option (ManagerState × List (ConnId × PyVal)) :=
  match msg_data with
  | some (.pstr s) =>
    if strStartsWith s "/static/uploads/" || strStartsWith s "/static/stickers/" then
      some (broadcast failed st envelope)
    else some (st, [(websocket, rejectMsg "非法资源地址")])
  | _ => some (st, [(websocket, rejectMsg "文件地址非法")])

/-- One iteration of the `ws_endpoint` receive loop on frame `frame`:
returns `some (state, sends)` when the loop continues, or `none` when the
iteration raises out of the loop (a decoded frame that is not a dict makes
`payload.get` raise `AttributeError`, which escapes to the outer handler).
Malformed JSON and each validation failure yield a private reply and no
state change; valid `chat`/`image`/`file` envelopes are broadcast;
`participants` triggers a participants broadcast; unknown types get a
private reply naming the type. -/
def handle_frame (failed : ConnId → Bool) (st : ManagerState)
    (websocket : ConnId) (frame : Frame) (now : String) :
    Option (ManagerState × List (ConnId × PyVal)) :=
  match frame with
  | .malformed => some (st, [(websocket, rejectMsg "消息格式错误")])
  | .parsed (.pdict kvs) =>
    let msg_type := dictGet (.pdict kvs) "type"
    let msg_data := dictGet (.pdict kvs) "data"
    let envelope := made_envelope st websocket kvs now
    match msg_type with
    | some (.pstr "chat") =>
      match msg_data with
      | some (.pstr s) =>
        if strBlank s then some (st, [(websocket, rejectMsg "空消息无法发送")])
        else some (broadcast failed st envelope)
      | _ => some (st, [(websocket, rejectMsg "空消息无法发送")])
    | some (.pstr "image") => handleResource failed st websocket msg_data envelope
    | some (.pstr "file") => handleResource failed st websocket msg_data envelope
    | some (.pstr "participants") => some (st, broadcast_participants failed st)
    | t => some (st, [(websocket, rejectMsg ("未知消息类型：" ++ pyFormat t))])
  | .parsed _ => none

/-- Why the receive loop was exited: a `WebSocketDisconnect`, or any other
exception (carrying the text that `f"服务器错误：{e}"` renders). -/
inductive ExitCause where
  | wsDisconnect : ExitCause
  | otherExc : String → ExitCause

/-- The exception handlers at the bottom of `ws_endpoint`.  On
`WebSocketDisconnect`: `disconnect`, broadcast the leave notice with the
returned name, broadcast participants.  On any other exception: first try to
send a private error to the offending session (swallowing a failure), then
run the same three cleanup steps in a `finally`. -/
def handle_exit (failed : ConnId → Bool) (st : ManagerState)
    (websocket : ConnId) (cause : ExitCause) (now : String) :
    ManagerState × List (ConnId × PyVal) :=
  match cause with
  | .wsDisconnect =>
    let r := disconnect st websocket
    let r2 := broadcast_system failed r.1 (r.2 ++ " 离开了聊天室") now
    (r2.1, r2.2 ++ broadcast_participants failed r2.1)
  | .otherExc e =>
    let errSends : List (ConnId × PyVal) :=
      if failed websocket then []
      else [(websocket, .pdict [("type", .pstr "system"),
                                ("data", .pstr ("服务器错误：" ++ e))])]
    let r := disconnect st websocket
    let r2 := broadcast_system failed r.1 (r.2 ++ " 离开了聊天室") now
    (r2.1, errSends ++ r2.2 ++ broadcast_participants failed r2.1)

/-!  Derived definitions used by the theorems. -/

/-- A sequence of `broadcast` calls, keeping only the final state. -/
def broadcastAll (failed : ConnId → Bool) (st : ManagerState)
    (msgs : List PyVal) : ManagerState :=
  msgs.foldl (fun s m => (broadcast failed s m).1) st

/-- The last `k` elements of a list, in order (all of it when it is shorter
than `k`). -/
def lastN {α : Type} (k : Nat) (l : List α) : List α := l.drop (l.length - k)

/-- Does a delivered JSON message carry a `"ts"` key? -/
def hasTs (m : PyVal) : Bool := (dictGet m "ts").isSome

/-!  Helper lemmas about the history buffer. -/

lemma trimHistory_eq_lastN (h : List PyVal) :
    trimHistory h = lastN max_history h := by
  unfold trimHistory lastN
  split
  · rfl
  · rw [Nat.sub_eq_zero_of_le (Nat.le_of_not_lt (by assumption)), List.drop_zero]

lemma lastN_lastN_append {α : Type} (k : Nat) (a b : List α) :
    lastN k (lastN k a ++ b) = lastN k (a ++ b) := by
  unfold lastN
  rcases le_or_lt a.length k with hk | hk
  · rw [Nat.sub_eq_zero_of_le hk, List.drop_zero]
  · have h1 : a.length - k ≤ a.length := Nat.sub_le _ _
    rw [List.length_append, List.length_drop, List.length_append]
    have h2 : a.length - (a.length - k) + b.length - k = b.length := by omega
    have h3 : a.length + b.length - k = (a.length - k) + b.length := by omega
    rw [h2, h3, ← List.drop_drop, List.drop_append_of_le_length h1]

lemma lastN_length {α : Type} (k : Nat) (l : List α) :
    (lastN k l).length = min k l.length := by
  unfold lastN; rw [List.length_drop]; omega

lemma broadcast_history_retained (failed : ConnId → Bool) (st : ManagerState)
    (m : PyVal) (hm : isRetained m = true) :
    (broadcast failed st m).1.history = trimHistory (st.history ++ [m]) := by
  simp [broadcast, hm]

lemma broadcastAll_history (failed : ConnId → Bool) :
    ∀ (msgs : List PyVal) (st : ManagerState),
      (∀ m ∈ msgs, isRetained m = true) →
      st.history.length ≤ max_history →
      (broadcastAll failed st msgs).history = lastN max_history (st.history ++ msgs) := by
  intro msgs
  induction msgs with
  | nil =>
    intro st _ hle
    simp only [broadcastAll, List.foldl_nil, List.append_nil, lastN,
      Nat.sub_eq_zero_of_le hle, List.drop_zero]
  | cons m ms ih =>
    intro st hret hle
    have hm : isRetained m = true := hret m (List.mem_cons_self m ms)
    have step : broadcastAll failed st (m :: ms)
        = broadcastAll failed (broadcast failed st m).1 ms := rfl
    have hh : (broadcast failed st m).1.history
        = lastN max_history (st.history ++ [m]) := by
      rw [broadcast_history_retained failed st m hm, trimHistory_eq_lastN]
    have hlen : (broadcast failed st m).1.history.length ≤ max_history := by
      rw [hh, lastN_length]; omega
    rw [step, ih _ (fun x hx => hret x (List.mem_cons_of_mem m hx)) hlen, hh,
      lastN_lastN_append, List.append_assoc]
    rfl

/-- The envelope the receive loop broadcasts for a chat message with sender
`u`, text `s` and timestamp `t` (the `name` field is `None` for plain
chats). -/
def chatEnv (u s t : String) : PyVal :=
  .pdict [("type", .pstr "chat"), ("user", .pstr u), ("data", .pstr s),
          ("name", .pnone), ("ts", .pstr t)]

/-- The `{"type": "system", "data": text, "ts": t}` dict built by
`broadcast_system`. -/
def sysEnv (text t : String) : PyVal :=
  .pdict [("type", .pstr "system"), ("data", .pstr text), ("ts", .pstr t)]

/-- The 25 chat messages of the C6 scenario. -/
def c6msgs : List PyVal :=
  (List.range 25).map (fun i => chatEnv "Alice" (toString i) "10:00:00")

/-- Manager state after broadcasting the 25 chats of the C6 scenario. -/
def c6state : ManagerState := broadcastAll (fun _ => false) initState c6msgs

/-- The C6 scenario join: connection 1 joins as Bob after the 25 chats. -/
def c6join : ManagerState × List (ConnId × PyVal) :=
  connect (fun _ => false) c6state 1 "Bob" "10:01:00"

/-- The C9 hypothesis on an inbound `data` value: it is not a string that
starts with one of the two allowed resource-path prefixes. -/
def invalidResourceData (v : Option PyVal) : Bool :=
  match v with
  | some (.pstr s) =>
    !(strStartsWith s "/static/uploads/" || strStartsWith s "/static/stickers/")
  | _ => true

/-- Reachable state: Alice joins a fresh server as connection 0. -/
def stAlice : ManagerState := (connect (fun _ => false) initState 0 "Alice" "09:00:00").1

/-- Reachable state: Bob joins a fresh server as connection 0, then Alice
joins as connection 1 (names arrive out of sorted order). -/
def stBobAlice : ManagerState :=
  (connect (fun _ => false) (connect (fun _ => false) initState 0 "Bob" "09:00:00").1
    1 "Alice" "09:00:01").1

/-- C1 claim, spelled on arbitrary prefixes: after the first `n` of the
retained broadcasts, the buffer is the last `min (H, n)` messages. -/
theorem C1_history_buffer_invariant (failed : ConnId → Bool) (msgs : List PyVal)
    (hret : ∀ m ∈ msgs, isRetained m = true) (n : Nat) :
    (broadcastAll failed initState (msgs.take n)).history
        = (msgs.take n).drop ((msgs.take n).length - max_history)
    ∧ (broadcastAll failed initState (msgs.take n)).history.length
        = min max_history (msgs.take n).length := by
  have hr : ∀ m ∈ msgs.take n, isRetained m = true :=
    fun m hm => hret m (List.mem_of_mem_take hm)
  have h0 : initState.history.length ≤ max_history := by
    simp [initState, max_history]
  have h := broadcastAll_history failed (msgs.take n) initState hr h0
  have hnil : initState.history ++ msgs.take n = msgs.take n := rfl
  rw [hnil] at h
  exact ⟨h, by rw [h, lastN_length]⟩

/-- C1 witness: the invariant instantiated on one concrete retained chat
broadcast. -/
theorem C1_history_buffer_invariant_witness :
    (∀ m ∈ [chatEnv "Alice" "hi" "10:00:00"], isRetained m = true)
    ∧ ((broadcastAll (fun _ => false) initState
          ([chatEnv "Alice" "hi" "10:00:00"].take 1)).history
        = ([chatEnv "Alice" "hi" "10:00:00"].take 1).drop
            (([chatEnv "Alice" "hi" "10:00:00"].take 1).length - max_history)
      ∧ (broadcastAll (fun _ => false) initState
          ([chatEnv "Alice" "hi" "10:00:00"].take 1)).history.length
        = min max_history ([chatEnv "Alice" "hi" "10:00:00"].take 1).length) :=
  ⟨by decide,
   C1_history_buffer_invariant (fun _ => false) [chatEnv "Alice" "hi" "10:00:00"]
     (by decide) 1⟩

/-- C5 counterexample: broadcasting a `system` envelope on a fresh manager
grows the history from `[]` to one entry, so `system` is not excluded from
history. -/
theorem C5_counterexample_system_is_retained :
    (broadcast (fun _ => false) initState (sysEnv "Alice 加入了聊天室" "10:00:00")).1.history
      = [sysEnv "Alice 加入了聊天室" "10:00:00"]
    ∧ [sysEnv "Alice 加入了聊天室" "10:00:00"] ≠ ([] : List PyVal) := by
  decide

/-- C5 amended: broadcasting a `system` envelope appends it to the history
buffer (the retained kinds are `chat`, `image`, `file` and `system`), and
only messages whose `type` is outside that set leave history unchanged. -/
theorem C5_system_envelopes_append_to_history (failed : ConnId → Bool)
    (st : ManagerState) (m : PyVal) :
    (dictGet m "type" = some (.pstr "system") →
      (broadcast failed st m).1.history = trimHistory (st.history ++ [m]))
    ∧ (isRetained m = false → (broadcast failed st m).1.history = st.history) := by
  constructor
  · intro h
    apply broadcast_history_retained
    unfold isRetained
    rw [h]
    decide
  · intro h
    simp [broadcast, h]

/-- C5 witness: the amended statement applied to a concrete `system`
envelope and to a concrete non-retained (`participants`) message. -/
theorem C5_system_envelopes_append_to_history_witness :
    (broadcast (fun _ => false) initState (sysEnv "s" "00:00:01")).1.history
        = trimHistory (initState.history ++ [sysEnv "s" "00:00:01"])
    ∧ (broadcast (fun _ => false) initState
          (.pdict [("type", .pstr "participants"), ("data", .plist [])])).1.history
        = initState.history :=
  ⟨(C5_system_envelopes_append_to_history (fun _ => false) initState
      (sysEnv "s" "00:00:01")).1 rfl,
   (C5_system_envelopes_append_to_history (fun _ => false) initState
      (.pdict [("type", .pstr "participants"), ("data", .plist [])])).2 (by decide)⟩

set_option maxRecDepth 100000 in
/-- C6 counterexample: after 25 chats, the joiner's history snapshot is not
the last 20 chat messages — the join notice itself was appended to history
first, evicting one more chat. -/
theorem C6_counterexample_snapshot_not_last20 :
    c6join.2.getLast? ≠
      some (1, .pdict [("type", .pstr "history"),
                       ("data", .plist (lastN 20 c6msgs))]) := by
  decide

set_option maxRecDepth 100000 in
/-- C6 amended: after 25 chats the joiner's history delivery holds the last
19 chat messages followed by the joiner's own system join announcement
(20 entries in total), oldest evicted first. -/
theorem C6_snapshot_last19_plus_join_notice :
    c6join.2.getLast? =
      some (1, .pdict [("type", .pstr "history"),
        ("data", .plist (c6msgs.drop 6 ++ [sysEnv "Bob 加入了聊天室" "10:01:00"]))]) := by
  decide

lemma trimHistory_concat (l : List PyVal) (m : PyVal) :
    ∃ l' : List PyVal, trimHistory (l ++ [m]) = l' ++ [m] := by
  rw [trimHistory_eq_lastN]
  unfold lastN
  rcases le_or_lt (l ++ [m]).length max_history with hk | hk
  · exact ⟨l, by rw [Nat.sub_eq_zero_of_le hk, List.drop_zero]⟩
  · have hlen : (l ++ [m]).length = l.length + 1 := by simp
    have hle : (l ++ [m]).length - max_history ≤ l.length := by
      rw [hlen]; have : 0 < max_history := by decide
      omega
    exact ⟨l.drop ((l ++ [m]).length - max_history),
      List.drop_append_of_le_length hle⟩

/-- C10: the private history snapshot sent to a joiner is never empty and
always ends with the joiner's own system join announcement, because
`connect` broadcasts (and retains) the join notice before sending the
snapshot. -/
theorem C10_snapshot_ends_with_own_join_notice (failed : ConnId → Bool)
    (st : ManagerState) (websocket : ConnId) (username now : String) :
    ∃ h : List PyVal,
      (connect failed st websocket username now).2.getLast?
        = some (websocket, .pdict [("type", .pstr "history"), ("data", .plist h)])
      ∧ h ≠ []
      ∧ h.getLast? = some (sysEnv (username ++ " 加入了聊天室") now) := by
  obtain ⟨l', hl'⟩ := trimHistory_concat st.history (sysEnv (username ++ " 加入了聊天室") now)
  have hm : isRetained (sysEnv (username ++ " 加入了聊天室") now) = true := rfl
  have hhist : (broadcast_system failed
      { st with active_connections := setAdd st.active_connections websocket,
                usernames := dictSet st.usernames websocket username }
      (username ++ " 加入了聊天室") now).1.history
      = l' ++ [sysEnv (username ++ " 加入了聊天室") now] := by
    show (broadcast failed _ (sysEnv (username ++ " 加入了聊天室") now)).1.history = _
    rw [broadcast_history_retained _ _ _ hm]
    exact hl'
  refine ⟨l' ++ [sysEnv (username ++ " 加入了聊天室") now], ?_, by simp, List.getLast?_concat _⟩
  show ((broadcast_system failed _ (username ++ " 加入了聊天室") now).2
      ++ broadcast_participants failed _
      ++ [(websocket, PyVal.pdict [("type", PyVal.pstr "history"),
            ("data", PyVal.plist (broadcast_system failed
              { st with active_connections := setAdd st.active_connections websocket,
                        usernames := dictSet st.usernames websocket username }
              (username ++ " 加入了聊天室") now).1.history)])]).getLast? = _
  rw [List.getLast?_concat, hhist]

/-- C7: on every exit path of the receive loop — voluntary disconnect or any
other exception — the handler runs the same three cleanup steps in order:
`disconnect`, a system leave broadcast using the name `disconnect`
returned, then a participants broadcast; the exception path merely precedes
them with an optional private error send. -/
theorem C7_cleanup_on_every_exit_path (failed : ConnId → Bool)
    (st : ManagerState) (websocket : ConnId) (cause : ExitCause) (now : String) :
    ∃ pre : List (ConnId × PyVal),
      handle_exit failed st websocket cause now
        = ((broadcast_system failed (disconnect st websocket).1
              ((disconnect st websocket).2 ++ " 离开了聊天室") now).1,
           pre
             ++ (broadcast_system failed (disconnect st websocket).1
                  ((disconnect st websocket).2 ++ " 离开了聊天室") now).2
             ++ broadcast_participants failed
                  (broadcast_system failed (disconnect st websocket).1
                    ((disconnect st websocket).2 ++ " 离开了聊天室") now).1) := by
  cases cause with
  | wsDisconnect => exact ⟨[], by simp [handle_exit]⟩
  | otherExc e =>
    refine ⟨if failed websocket then []
            else [(websocket, .pdict [("type", .pstr "system"),
                   ("data", .pstr ("服务器错误：" ++ e))])], ?_⟩
    simp [handle_exit]

lemma find_filtered_usernames (l : List (ConnId × String)) (ws : ConnId) :
    (l.filter (fun p => p.1 ≠ ws)).find? (fun p => p.1 == ws) = none := by
  rw [List.find?_eq_none]
  intro x hx
  have h := (List.mem_filter.mp hx).2
  simp only [ne_eq, decide_not, Bool.not_eq_true', decide_eq_false_iff_not] at h
  simpa using h

lemma filter_ne_idem (l : List ConnId) (ws : ConnId) :
    (l.filter (fun c => c ≠ ws)).filter (fun c => c ≠ ws)
      = l.filter (fun c => c ≠ ws) := by
  apply List.filter_eq_self.mpr
  intro a ha
  exact (List.mem_filter.mp ha).2

lemma filter_ne_idem_pairs (l : List (ConnId × String)) (ws : ConnId) :
    (l.filter (fun p => p.1 ≠ ws)).filter (fun p => p.1 ≠ ws)
      = l.filter (fun p => p.1 ≠ ws) := by
  apply List.filter_eq_self.mpr
  intro a ha
  exact (List.mem_filter.mp ha).2

/-- C8: `disconnect` returns the name previously associated with the
identity (the default placeholder `"访客"` when it was never registered, in
which case the state is left unchanged), and a second `disconnect` of the
same identity is a no-op returning the placeholder. -/
theorem C8_disconnect_idempotent_returns_name (st : ManagerState) (ws : ConnId) :
    ((disconnect st ws).2 = usernamesGet st.usernames ws "访客")
    ∧ (st.usernames.find? (fun p => p.1 == ws) = none →
        ws ∉ st.active_connections →
        disconnect st ws = (st, "访客"))
    ∧ disconnect (disconnect st ws).1 ws = ((disconnect st ws).1, "访客") := by
  refine ⟨rfl, ?_, ?_⟩
  · intro h1 h2
    obtain ⟨ac, us, hi⟩ := st
    simp only [disconnect, usernamesGet] at *
    rw [h1]
    have hac : ac.filter (fun c => c ≠ ws) = ac := by
      apply List.filter_eq_self.mpr
      intro a ha
      simp only [ne_eq, decide_not, Bool.not_eq_true', decide_eq_false_iff_not]
      intro hcontra
      exact h2 (hcontra ▸ ha)
    have hus : us.filter (fun p => p.1 ≠ ws) = us := by
      apply List.filter_eq_self.mpr
      intro a ha
      have := List.find?_eq_none.mp h1 a ha
      simp only [ne_eq, decide_not, Bool.not_eq_true', decide_eq_false_iff_not]
      simpa using this
    rw [hac, hus]
    rfl
  · obtain ⟨ac, us, hi⟩ := st
    simp only [disconnect, usernamesGet]
    rw [find_filtered_usernames, filter_ne_idem, filter_ne_idem_pairs]
    simp

/-- C8 witness: applied to the empty manager, where connection 1 is not
registered, and then again to the (unchanged) result. -/
theorem C8_disconnect_idempotent_returns_name_witness :
    disconnect initState 1 = (initState, "访客")
    ∧ disconnect (disconnect initState 1).1 1 = ((disconnect initState 1).1, "访客") :=
  ⟨(C8_disconnect_idempotent_returns_name initState 1).2.1 rfl (by simp [initState]),
   (C8_disconnect_idempotent_returns_name initState 1).2.2⟩

lemma handleResource_invalid (failed : ConnId → Bool) (st : ManagerState)
    (websocket : ConnId) (v : Option PyVal) (envelope : PyVal)
    (h : invalidResourceData v = true) :
    ∃ m : PyVal, handleResource failed st websocket v envelope
      = some (st, [(websocket, m)]) := by
  match v with
  | some (.pstr s) =>
    simp only [invalidResourceData, Bool.not_eq_true', Bool.or_eq_false_iff] at h
    exact ⟨rejectMsg "非法资源地址", by simp [handleResource, h.1, h.2]⟩
  | some (.pint _) => exact ⟨rejectMsg "文件地址非法", rfl⟩
  | some .pnone => exact ⟨rejectMsg "文件地址非法", rfl⟩
  | some (.plist _) => exact ⟨rejectMsg "文件地址非法", rfl⟩
  | some (.pdict _) => exact ⟨rejectMsg "文件地址非法", rfl⟩
  | none => exact ⟨rejectMsg "文件地址非法", rfl⟩

/-- C9: an inbound `image` or `file` frame whose `data` is not a string with
an allowed resource-path prefix yields exactly one private reply to the
offending session, no broadcast, and an unchanged manager state (hence an
unchanged History Buffer). -/
theorem C9_invalid_resource_rejected_privately (failed : ConnId → Bool)
    (st : ManagerState) (websocket : ConnId) (now : String)
    (kvs : List (String × PyVal))
    (htype : dictGet (.pdict kvs) "type" = some (.pstr "image")
           ∨ dictGet (.pdict kvs) "type" = some (.pstr "file"))
    (hdata : invalidResourceData (dictGet (.pdict kvs) "data") = true) :
    ∃ m : PyVal, handle_frame failed st websocket (.parsed (.pdict kvs)) now
      = some (st, [(websocket, m)]) := by
  simp only [handle_frame]
  rcases htype with h | h <;> rw [h] <;>
    exact handleResource_invalid failed st websocket _ _ hdata

/-- C9 witness: a concrete `image` frame pointing outside the allowed
prefixes is rejected with a single private reply and no state change. -/
theorem C9_invalid_resource_rejected_privately_witness :
    invalidResourceData (dictGet
        (.pdict [("type", PyVal.pstr "image"), ("data", PyVal.pstr "https://evil/x.png")])
        "data") = true
    ∧ ∃ m : PyVal, handle_frame (fun _ => false) initState 0
        (.parsed (.pdict [("type", PyVal.pstr "image"),
                          ("data", PyVal.pstr "https://evil/x.png")])) "12:00:00"
        = some (initState, [(0, m)]) :=
  ⟨by decide,
   C9_invalid_resource_rejected_privately (fun _ => false) initState 0 "12:00:00"
     [("type", PyVal.pstr "image"), ("data", PyVal.pstr "https://evil/x.png")]
     (Or.inl (by decide)) (by decide)⟩

/-- The private history snapshot sent by `connect` is always the last
element of its send trace, and carries the post-join history. -/
lemma connect_getLast (failed : ConnId → Bool) (st : ManagerState)
    (websocket : ConnId) (username now : String) :
    (connect failed st websocket username now).2.getLast?
      = some (websocket, .pdict [("type", .pstr "history"),
          ("data", .plist (connect failed st websocket username now).1.history)]) := by
  simp only [connect]
  rw [List.getLast?_concat]

/-- C2 counterexample: a delivered `participants` envelope and a delivered
`history` envelope carry no `ts` key. -/
theorem C2_counterexample_no_ts_on_participants_history :
    ((broadcast_participants (fun _ => false) stAlice).map (fun p => hasTs p.2)
       = [false])
    ∧ ((connect (fun _ => false) initState 0 "Alice" "09:00:00").2.getLast?.map
          (fun p => hasTs p.2) = some false) := by
  decide

/-- C2 amended: envelopes fanned out by `broadcast_system` and the envelope
built by the receive loop always carry `ts`, but the `participants`
envelopes and the private `history` snapshot never do. -/
theorem C2_ts_on_broadcasts_not_on_snapshots (failed : ConnId → Bool)
    (st : ManagerState) (text now : String) (websocket : ConnId)
    (username : String) (kvs : List (String × PyVal)) :
    (∀ p ∈ (broadcast_system failed st text now).2, hasTs p.2 = true)
    ∧ hasTs (made_envelope st websocket kvs now) = true
    ∧ (∀ p ∈ broadcast_participants failed st, hasTs p.2 = false)
    ∧ (∃ m, (connect failed st websocket username now).2.getLast?
          = some (websocket, m) ∧ hasTs m = false) := by
  refine ⟨?_, rfl, ?_, ?_⟩
  · intro p hp
    simp only [broadcast_system, broadcast] at hp
    obtain ⟨c, hc, rfl⟩ := List.mem_map.mp hp
    rfl
  · intro p hp
    simp only [broadcast_participants] at hp
    obtain ⟨c, hc, rfl⟩ := List.mem_map.mp hp
    rfl
  · exact ⟨_, connect_getLast failed st websocket username now, rfl⟩

/-- C2 witness: the amended statement at a concrete one-client state. -/
theorem C2_ts_on_broadcasts_not_on_snapshots_witness :
    (∀ p ∈ (broadcast_system (fun _ => false) stAlice "hi" "12:00:00").2,
        hasTs p.2 = true)
    ∧ hasTs (made_envelope stAlice 1
        [("type", PyVal.pstr "chat"), ("data", PyVal.pstr "yo")] "12:00:00") = true
    ∧ (∀ p ∈ broadcast_participants (fun _ => false) stAlice, hasTs p.2 = false)
    ∧ (∃ m, (connect (fun _ => false) stAlice 1 "Bob" "12:00:00").2.getLast?
          = some (1, m) ∧ hasTs m = false) :=
  C2_ts_on_broadcasts_not_on_snapshots (fun _ => false) stAlice "hi" "12:00:00" 1 "Bob"
    [("type", PyVal.pstr "chat"), ("data", PyVal.pstr "yo")]

/-- C3 counterexample: with connection 0's transport broken, a broadcast
still reaches connection 1, but connection 0 is NOT removed from the live
set or the roster — the failure is silently swallowed. -/
theorem C3_counterexample_failed_recipient_not_removed :
    ((broadcast (fun c => c == 0) stBobAlice (chatEnv "Alice" "hi" "09:01:00")).2
        = [(1, chatEnv "Alice" "hi" "09:01:00")])
    ∧ (broadcast (fun c => c == 0) stBobAlice
        (chatEnv "Alice" "hi" "09:01:00")).1.active_connections = [0, 1]
    ∧ (broadcast (fun c => c == 0) stBobAlice
        (chatEnv "Alice" "hi" "09:01:00")).1.usernames = [(0, "Bob"), (1, "Alice")] := by
  decide

/-- C3 amended: a failed recipient does not abort delivery — every live
connection whose transport does not fail receives the broadcast — but the
failed session is left in the live set and roster (cleanup happens only via
the session handler's disconnect path). -/
theorem C3_delivery_continues_failed_kept (failed : ConnId → Bool)
    (st : ManagerState) (m : PyVal) :
    (∀ c ∈ st.active_connections, failed c = false →
        (c, m) ∈ (broadcast failed st m).2)
    ∧ (broadcast failed st m).1.active_connections = st.active_connections
    ∧ (broadcast failed st m).1.usernames = st.usernames := by
  refine ⟨?_, rfl, rfl⟩
  intro c hc hf
  simp only [broadcast]
  exact List.mem_map.mpr ⟨c, List.mem_filter.mpr ⟨hc, by simp [hf]⟩, rfl⟩

/-- C3 witness: concrete two-client state where connection 0 fails and
connection 1 still receives the chat broadcast. -/
theorem C3_delivery_continues_failed_kept_witness :
    (1 ∈ stBobAlice.active_connections)
    ∧ ((1 == 0) = false)
    ∧ (1, chatEnv "Alice" "hi" "09:01:00")
        ∈ (broadcast (fun c => c == 0) stBobAlice (chatEnv "Alice" "hi" "09:01:00")).2 :=
  ⟨by decide, by decide,
   (C3_delivery_continues_failed_kept (fun c => c == 0) stBobAlice
      (chatEnv "Alice" "hi" "09:01:00")).1 1 (by decide) (by decide)⟩

/-- C4 counterexample: with Bob connected before Alice, every delivered
`participants` payload is `["Bob", "Alice"]`, which is not the sorted order
`["Alice", "Bob"]`. -/
theorem C4_counterexample_participants_not_sorted :
    ((broadcast_participants (fun _ => false) stBobAlice).map
        (fun p => dictGet p.2 "data")
      = [some (.plist [.pstr "Bob", .pstr "Alice"]),
         some (.plist [.pstr "Bob", .pstr "Alice"])])
    ∧ [PyVal.pstr "Bob", PyVal.pstr "Alice"] ≠ [PyVal.pstr "Alice", PyVal.pstr "Bob"] := by
  decide

/-- C4 amended: every delivered `participants` envelope lists the display
names in the live set's iteration order (no sorting is applied), so the
order reflects insertion order, not sorted order. -/
theorem C4_participants_in_live_set_order (failed : ConnId → Bool)
    (st : ManagerState) :
    ∀ p ∈ broadcast_participants failed st,
      p.2 = .pdict [("type", .pstr "participants"),
        ("data", .plist ((st.active_connections.map
            (fun ws => usernamesGet st.usernames ws "访客")).map PyVal.pstr))] := by
  intro p hp
  simp only [broadcast_participants] at hp
  obtain ⟨c, hc, rfl⟩ := List.mem_map.mp hp
  rfl

/-- C4 witness: the amended statement at the concrete Bob-then-Alice state,
where the delivered order is `["Bob", "Alice"]`. -/
theorem C4_participants_in_live_set_order_witness :
    ((0, PyVal.pdict [("type", PyVal.pstr "participants"),
         ("data", PyVal.plist [PyVal.pstr "Bob", PyVal.pstr "Alice"])])
        ∈ broadcast_participants (fun _ => false) stBobAlice)
    ∧ ((0, PyVal.pdict [("type", PyVal.pstr "participants"),
         ("data", PyVal.plist [PyVal.pstr "Bob", PyVal.pstr "Alice"])]).2
        = .pdict [("type", .pstr "participants"),
            ("data", .plist ((stBobAlice.active_connections.map
                (fun ws => usernamesGet stBobAlice.usernames ws "访客")).map
                  PyVal.pstr))]) :=
  ⟨by decide,
   C4_participants_in_live_set_order (fun _ => false) stBobAlice _ (by decide)⟩
